import Mathlib

set_option maxHeartbeats 1000000

attribute [local semireducible] Rat.mul

/-!
Shallow embedding of src/scripts/Tag.js (taggd).  A Tag owns a button
element and a popup element; every mutator dispatches a cancelable intent
event, applies the mutation only when no observer cancels it, and then
dispatches a non-cancelable confirmation event.

DOM elements are modelled by their observable state (attribute map, the
inline styles the code touches, innerHTML) plus a numeric identity standing
for object identity.  Observers are modelled by a policy that decides, per
cancelable event name and target surface, whether some listener cancels the
event; non-cancelable events can never be cancelled, and the confirmation
dispatch ignores its result exactly as the source does.  JavaScript values
passed to the API are modelled by JSValue; numbers are rationals together
with NaN and the two infinities, and number-to-string conversion is exact on
integers (the only numeric renderings the repository's examples exercise).
-/

/-- A JavaScript number: a finite rational, NaN, or a signed infinity. -/
inductive JSNumber where
  | finite (q : Rat)
  | nan
  | inf (neg : Bool)
  deriving DecidableEq, Repr

/-- JavaScript multiplication on numbers, restricted to what the source can
reach (it only ever multiplies a validated finite number by 100). -/
def jsMul : JSNumber → JSNumber → JSNumber
  | JSNumber.finite a, JSNumber.finite b => JSNumber.finite (a * b)
  | JSNumber.nan, _ => JSNumber.nan
  | _, JSNumber.nan => JSNumber.nan
  | JSNumber.inf s, JSNumber.finite b =>
      if b = 0 then JSNumber.nan else JSNumber.inf (xor s (decide (b < 0)))
  | JSNumber.finite a, JSNumber.inf s =>
      if a = 0 then JSNumber.nan else JSNumber.inf (xor s (decide (a < 0)))
  | JSNumber.inf s, JSNumber.inf u => JSNumber.inf (xor s u)

/-- JavaScript number-to-string conversion, exact on integers; a
non-integral rational is rendered as numerator slash denominator, a
simplification of the decimal expansion that no claim exercises. -/
def numToString : JSNumber → String
  | JSNumber.finite q =>
      if q.den = 1 then toString q.num else toString q.num ++ "/" ++ toString q.den
  | JSNumber.nan => "NaN"
  | JSNumber.inf false => "Infinity"
  | JSNumber.inf true => "-Infinity"

/-- The two surfaces a Tag owns: the activator button and the content
popup.  Events are dispatched on one of these. -/
inductive Surface where
  | button
  | popup
  deriving DecidableEq, Repr

/-- Observable state of a DOM element: its attribute map, the inline style
properties the source touches, its innerHTML, and a numeric identity
standing for JavaScript object identity. -/
structure Element where
  id : Nat
  attrs : List (String × String)
  styleDisplay : String
  styleLeft : String
  styleTop : String
  innerHTML : String
  deriving DecidableEq, Repr

/-- document.createElement: a fresh element has no attributes, empty inline
style, and empty content. -/
def createElement (id : Nat) : Element :=
  { id := id, attrs := [], styleDisplay := "", styleLeft := "", styleTop := "",
    innerHTML := "" }

/-- Lookup in an attribute list (first match). -/
def lookupAttr : List (String × String) → String → Option String
  | [], _ => none
  | (k, w) :: rest, n => if k = n then some w else lookupAttr rest n

/-- DOM setAttribute on the underlying list: replace the existing entry in
place, or append a new one. -/
def setPairs : List (String × String) → String → String → List (String × String)
  | [], n, v => [(n, v)]
  | (k, w) :: rest, n, v =>
      if k = n then (k, v) :: rest else (k, w) :: setPairs rest n v

/-- DOM getAttribute: the attribute value, or none (null) when absent. -/
def Element.getAttribute (el : Element) (name : String) : Option String :=
  lookupAttr el.attrs name

/-- DOM setAttribute. -/
def Element.setAttribute (el : Element) (name value : String) : Element :=
  { el with attrs := setPairs el.attrs name value }

/-- A Tag instance: the two owned elements plus a numeric identity standing
for JavaScript object identity. -/
structure Tag where
  id : Nat
  buttonElement : Element
  popupElement : Element
  deriving DecidableEq, Repr

/-- A JavaScript value as passed to the Tag API.  A callable text argument
is a function from the Tag to the markup string it produces. -/
inductive JSValue where
  | vStr (s : String)
  | vNum (n : JSNumber)
  | vBool (b : Bool)
  | vNull
  | vUndef
  | vObj (entries : List (String × JSValue))
  | vFun (f : Tag → String)

/-- Modelled from the spec: the helper module util/object-is is not under
src/, so the dynamic type tag follows the spec's vocabulary — a string has
type "string", a callable has type "function", and exactly a plain
key/value mapping has type "object" (the spec: attribute-merge "fails with
an invalid-argument error if the mapping argument is not a plain key/value
mapping"). -/
def JSValue.specType : JSValue → String
  | JSValue.vStr _ => "string"
  | JSValue.vNum _ => "number"
  | JSValue.vBool _ => "boolean"
  | JSValue.vNull => "null"
  | JSValue.vUndef => "undefined"
  | JSValue.vObj _ => "object"
  | JSValue.vFun _ => "function"

/-- Modelled from the spec: ObjectIs.ofType from the missing util module,
testing a value's dynamic type tag. -/
def ObjectIs.ofType (v : JSValue) (t : String) : Bool :=
  v.specType == t

/-- Modelled from the spec: ObjectIs.function from the missing util module,
true exactly for callables. -/
def ObjectIs.function (v : JSValue) : Bool :=
  v.specType == "function"

/-- Modelled from the spec: ObjectIs.number from the missing util module;
the spec requires x and y to be "finite numbers", so NaN and the infinities
are rejected. -/
def ObjectIs.number : JSValue → Bool
  | JSValue.vNum (JSNumber.finite _) => true
  | _ => false

/-- JavaScript string coercion, as used by setAttribute, template-literal
interpolation, and innerHTML assignment.  Function sources are abbreviated;
no claim stringifies a callable. -/
def jsToString : JSValue → String
  | JSValue.vStr s => s
  | JSValue.vNum n => numToString n
  | JSValue.vBool true => "true"
  | JSValue.vBool false => "false"
  | JSValue.vNull => "null"
  | JSValue.vUndef => "undefined"
  | JSValue.vObj _ => "[object Object]"
  | JSValue.vFun _ => "function"

/-- A thrown JavaScript error: the Error objects the source constructs, and
the ReferenceError raised by reading an undeclared identifier. -/
inductive JSError where
  | typeError (msg : String)
  | referenceError (msg : String)
  deriving DecidableEq, Repr

/-- Modelled from the spec: util/type-error-message is not under src/; the
spec describes the invalid-argument error as naming the offending value and
what was expected. -/
def TypeErrorMessage.getMessage (v : JSValue) (expected : String) : String :=
  jsToString v ++ " is not " ++ expected

/-- Modelled from the spec: the setPosition error expects "a number". -/
def TypeErrorMessage.getIntegerMessage (v : JSValue) : String :=
  TypeErrorMessage.getMessage v "a number"

/-- Modelled from the spec: the attribute-merge error expects an object. -/
def TypeErrorMessage.getObjectMessage (v : JSValue) : String :=
  TypeErrorMessage.getMessage v "an object"

/-- An event as dispatched by the source: its name, the surface it is
dispatched on, whether it is cancelable, and that it bubbles.  Its detail
always carries the Tag itself, so the detail is not modelled separately. -/
structure TagEvent where
  name : String
  surface : Surface
  cancelable : Bool
  bubbles : Bool
  deriving DecidableEq, Repr

/-- createTagEvent from the source: bubbling, not cancelable. -/
def createTagEvent (eventName : String) (s : Surface) : TagEvent :=
  { name := eventName, surface := s, cancelable := false, bubbles := true }

/-- createCancelableTagEvent from the source: bubbling and cancelable. -/
def createCancelableTagEvent (eventName : String) (s : Surface) : TagEvent :=
  { name := eventName, surface := s, cancelable := true, bubbles := true }

/-- The observers' behaviour: for each cancelable event name and target
surface, whether some listener cancels the dispatch.  Non-cancelable
dispatch results are ignored by the source. -/
def Policy : Type := String → Surface → Bool

/-- No observer cancels anything.  The constructor's internal dispatches
use this: the two elements are created inside the constructor and nothing
can attach a listener to them before it returns, so those dispatches can
never be cancelled. -/
def noVeto : Policy := fun _ _ => false

/-- Every cancelable dispatch is cancelled. -/
def allVeto : Policy := fun _ _ => true

/-- Result of one mutator call: the state of this afterwards, the events
dispatched in order before returning or throwing, and the thrown error if
any (none means the call returned normally, returning this). -/
structure OpResult where
  tag : Tag
  events : List TagEvent
  err : Option JSError
  deriving Repr

/-- JavaScript default-parameter semantics: undefined selects the default,
every other value (including null) is kept. -/
def jsDefault (v dflt : JSValue) : JSValue :=
  match v with
  | JSValue.vUndef => dflt
  | _ => v

/-- Truthiness of a getAttribute result: null and the empty string are
falsy. -/
def attrTruthy : Option String → Bool
  | none => false
  | some s => s != ""

/-- The string a getAttribute result contributes to string concatenation
(only reached under a truthy guard in the source). -/
def attrString : Option String → String
  | none => "null"
  | some s => s

/-- One iteration of the for-in loop of Tag.setElementAttributes: if the
name is class and the element already carries a truthy class value, append
the new value after a space; otherwise plain setAttribute. -/
def applyAttr (el : Element) (attrName : String) (v : JSValue) : Element :=
  if attrName == "class" && attrTruthy (el.getAttribute attrName) then
    el.setAttribute attrName (attrString (el.getAttribute attrName) ++ " " ++ jsToString v)
  else
    el.setAttribute attrName (jsToString v)

/-- The whole for-in loop, over the mapping's entries in insertion order. -/
def applyAttrs (el : Element) : List (String × JSValue) → Element
  | [] => el
  | (k, v) :: rest => applyAttrs (applyAttr el k v) rest

/-- The entries of a mapping value (empty for every other value, matching
what a for-in loop would enumerate on the values the guard lets through). -/
def objEntries : JSValue → List (String × JSValue)
  | JSValue.vObj m => m
  | _ => []

/-- Tag.setElementAttributes (static): after the default, throw unless the
argument is a mapping, else merge every entry onto the element and return
the same element. -/
def Tag.setElementAttributes (element : Element) (attributes : JSValue) :
    Except JSError Element :=
  let attributes := jsDefault attributes (JSValue.vObj [])
  if !(ObjectIs.ofType attributes "object") then
    Except.error (JSError.typeError (TypeErrorMessage.getObjectMessage attributes))
  else
    Except.ok (applyAttrs element (objEntries attributes))

/-- Tag.prototype.show: dispatch the cancelable show intent on the popup;
when not cancelled, clear the display override and dispatch shown. -/
def Tag.showTag (t : Tag) (policy : Policy) : OpResult :=
  let showEvent := createCancelableTagEvent "taggd.tag.show" Surface.popup
  let isCanceled := policy "taggd.tag.show" Surface.popup
  if isCanceled then
    { tag := t, events := [showEvent], err := none }
  else
    { tag := { t with popupElement := { t.popupElement with styleDisplay := "" } },
      events := [showEvent, createTagEvent "taggd.tag.shown" Surface.popup],
      err := none }

/-- Tag.prototype.hide: dispatch the cancelable hide intent on the popup;
when not cancelled, set display none and dispatch hidden. -/
def Tag.hideTag (t : Tag) (policy : Policy) : OpResult :=
  let hideEvent := createCancelableTagEvent "taggd.tag.hide" Surface.popup
  let isCanceled := policy "taggd.tag.hide" Surface.popup
  if isCanceled then
    { tag := t, events := [hideEvent], err := none }
  else
    { tag := { t with popupElement := { t.popupElement with styleDisplay := "none" } },
      events := [hideEvent, createTagEvent "taggd.tag.hidden" Surface.popup],
      err := none }

/-- The markup produced from a text argument in the apply step of setText:
a callable is invoked with the Tag, anything else is assigned (and hence
string-coerced) directly. -/
def textMarkup : JSValue → Tag → String
  | JSValue.vFun f, t => f t
  | v, _ => jsToString v

/-- Tag.prototype.setText.  The source's guard reads: not ofType string AND
ObjectIs.function — so it fires exactly when the argument is callable; and
the thrown expression reads the undeclared identifier type, so reaching the
branch raises a ReferenceError before any event is dispatched. -/
def Tag.setText (t : Tag) (policy : Policy) (text : JSValue) : OpResult :=
  if !(ObjectIs.ofType text "string") && ObjectIs.function text then
    { tag := t, events := [], err := some (JSError.referenceError "type is not defined") }
  else
    let changeEvent := createCancelableTagEvent "taggd.tag.change" Surface.popup
    let isCanceled := policy "taggd.tag.change" Surface.popup
    if isCanceled then
      { tag := t, events := [changeEvent], err := none }
    else
      { tag := { t with popupElement :=
          { t.popupElement with innerHTML := textMarkup text t } },
        events := [changeEvent, createTagEvent "taggd.tag.changed" Surface.popup],
        err := none }

/-- The position style record of Tag.getPositionStyle. -/
structure PositionStyle where
  left : String
  top : String
  deriving DecidableEq, Repr

/-- Tag.getPositionStyle (static): multiply each coordinate by 100 and
append a percent sign; no validation, no side effects. -/
def Tag.getPositionStyle (x y : JSNumber) : PositionStyle :=
  { left := numToString (jsMul x (JSNumber.finite 100)) ++ "%",
    top := numToString (jsMul y (JSNumber.finite 100)) ++ "%" }

/-- The number a validated coordinate value carries (only reached after
ObjectIs.number has accepted it, so the fallback is never hit). -/
def JSValue.toNumber : JSValue → JSNumber
  | JSValue.vNum n => n
  | _ => JSNumber.nan

/-- Tag.prototype.setPosition: validate x then y, then dispatch the
cancelable change intent on the popup; when not cancelled, apply the
position style to the popup and dispatch changed. -/
def Tag.setPosition (t : Tag) (policy : Policy) (x y : JSValue) : OpResult :=
  if !(ObjectIs.number x) then
    { tag := t, events := [],
      err := some (JSError.typeError (TypeErrorMessage.getIntegerMessage x)) }
  else if !(ObjectIs.number y) then
    { tag := t, events := [],
      err := some (JSError.typeError (TypeErrorMessage.getIntegerMessage y)) }
  else
    let changeEvent := createCancelableTagEvent "taggd.tag.change" Surface.popup
    let isCanceled := policy "taggd.tag.change" Surface.popup
    if isCanceled then
      { tag := t, events := [changeEvent], err := none }
    else
      let positionStyle := Tag.getPositionStyle x.toNumber y.toNumber
      let pe := { t.popupElement with
                  styleLeft := positionStyle.left
                  styleTop := positionStyle.top }
      { tag := { t with popupElement := pe },
        events := [changeEvent, createTagEvent "taggd.tag.changed" Surface.popup],
        err := none }

/-- Tag.prototype.setButtonAttributes: dispatch the cancelable change
intent on the button; when not cancelled, merge the attributes onto the
button (which may throw) and dispatch changed. -/
def Tag.setButtonAttributes (t : Tag) (policy : Policy) (attributes : JSValue) : OpResult :=
  let changeEvent := createCancelableTagEvent "taggd.tag.change" Surface.button
  let isCanceled := policy "taggd.tag.change" Surface.button
  if isCanceled then
    { tag := t, events := [changeEvent], err := none }
  else
    match Tag.setElementAttributes t.buttonElement attributes with
    | Except.error e => { tag := t, events := [changeEvent], err := some e }
    | Except.ok el =>
        { tag := { t with buttonElement := el },
          events := [changeEvent, createTagEvent "taggd.tag.changed" Surface.button],
          err := none }

/-- Tag.prototype.setPopupAttributes: the same on the popup surface. -/
def Tag.setPopupAttributes (t : Tag) (policy : Policy) (attributes : JSValue) : OpResult :=
  let changeEvent := createCancelableTagEvent "taggd.tag.change" Surface.popup
  let isCanceled := policy "taggd.tag.change" Surface.popup
  if isCanceled then
    { tag := t, events := [changeEvent], err := none }
  else
    match Tag.setElementAttributes t.popupElement attributes with
    | Except.error e => { tag := t, events := [changeEvent], err := some e }
    | Except.ok el =>
        { tag := { t with popupElement := el },
          events := [changeEvent, createTagEvent "taggd.tag.changed" Surface.popup],
          err := none }

/-- Lookup among a mapping's entries (first match). -/
def lookupEntry : List (String × JSValue) → String → Option JSValue
  | [], _ => none
  | (k, v) :: rest, n => if k = n then some v else lookupEntry rest n

/-- JavaScript property access: a missing property of a mapping is
undefined, accessing a property of null or undefined throws, and property
access on other primitives yields undefined for the names used here. -/
def JSValue.getField : JSValue → String → Except JSError JSValue
  | JSValue.vObj m, n => Except.ok ((lookupEntry m n).getD JSValue.vUndef)
  | JSValue.vNull, n =>
      Except.error (JSError.typeError ("Cannot read properties of null: " ++ n))
  | JSValue.vUndef, n =>
      Except.error (JSError.typeError ("Cannot read properties of undefined: " ++ n))
  | _, _ => Except.ok JSValue.vUndef

/-- The Tag constructor: create the two elements, then setButtonAttributes,
setPopupAttributes, setPosition (on position.x and position.y), setText,
and finally hide, aborting at the first thrown error.  All internal
dispatches use noVeto, since no listener can exist on the freshly created,
detached elements while the constructor runs.  The parameter defaults of
the constructor and of the two attribute setters coincide with the default
inside setElementAttributes, where the embedding applies it. -/
def TagNew (tagId buttonId popupId : Nat)
    (position text buttonAttributes popupAttributes : JSValue) :
    Except JSError (Tag × List TagEvent) :=
  let t0 : Tag :=
    { id := tagId, buttonElement := createElement buttonId,
      popupElement := createElement popupId }
  let r1 := t0.setButtonAttributes noVeto buttonAttributes
  match r1.err with
  | some e => Except.error e
  | none =>
    let r2 := r1.tag.setPopupAttributes noVeto popupAttributes
    match r2.err with
    | some e => Except.error e
    | none =>
      match position.getField "x" with
      | Except.error e => Except.error e
      | Except.ok px =>
        match position.getField "y" with
        | Except.error e => Except.error e
        | Except.ok py =>
          let r3 := r2.tag.setPosition noVeto px py
          match r3.err with
          | some e => Except.error e
          | none =>
            let r4 := r3.tag.setText noVeto text
            match r4.err with
            | some e => Except.error e
            | none =>
              let r5 := r4.tag.hideTag noVeto
              Except.ok (r5.tag,
                r1.events ++ r2.events ++ r3.events ++ r4.events ++ r5.events)

/-- Tag.createFromObject (static): read the four fields off the object and
delegate to the constructor with them in that order. -/
def Tag.createFromObject (tagId buttonId popupId : Nat) (object : JSValue) :
    Except JSError (Tag × List TagEvent) :=
  match object.getField "position" with
  | Except.error e => Except.error e
  | Except.ok position =>
    match object.getField "text" with
    | Except.error e => Except.error e
    | Except.ok text =>
      match object.getField "buttonAttributes" with
      | Except.error e => Except.error e
      | Except.ok buttonAttributes =>
        match object.getField "popupAttributes" with
        | Except.error e => Except.error e
        | Except.ok popupAttributes =>
          TagNew tagId buttonId popupId position text buttonAttributes popupAttributes

/-- A sample fresh Tag used by concrete evaluations. -/
def tag0 : Tag :=
  { id := 0, buttonElement := createElement 1, popupElement := createElement 2 }

/-- A sample position object with x one half and y one quarter. -/
def samplePos : JSValue :=
  JSValue.vObj [("x", JSValue.vNum (JSNumber.finite (mkRat 1 2))),
                ("y", JSValue.vNum (JSNumber.finite (mkRat 1 4)))]

/-- The plain-data object of the spec's factory example. -/
def sampleObject : JSValue :=
  JSValue.vObj [("position", samplePos), ("text", JSValue.vStr "hi")]

/-- The value the constructor produces on the sample input: the Tag state
and the ten events its internal mutator calls dispatch, in order. -/
def sampleConstructed : Tag × List TagEvent :=
  ({ id := 0,
     buttonElement := createElement 1,
     popupElement :=
       { id := 2, attrs := [], styleDisplay := "none", styleLeft := "50%",
         styleTop := "25%", innerHTML := "hi" } },
   [createCancelableTagEvent "taggd.tag.change" Surface.button,
    createTagEvent "taggd.tag.changed" Surface.button,
    createCancelableTagEvent "taggd.tag.change" Surface.popup,
    createTagEvent "taggd.tag.changed" Surface.popup,
    createCancelableTagEvent "taggd.tag.change" Surface.popup,
    createTagEvent "taggd.tag.changed" Surface.popup,
    createCancelableTagEvent "taggd.tag.change" Surface.popup,
    createTagEvent "taggd.tag.changed" Surface.popup,
    createCancelableTagEvent "taggd.tag.hide" Surface.popup,
    createTagEvent "taggd.tag.hidden" Surface.popup])

/-- An element that already carries the class value a. -/
def elA : Element := (createElement 5).setAttribute "class" "a"

theorem lookupAttr_setPairs_self (l : List (String × String)) (n v : String) :
    lookupAttr (setPairs l n v) n = some v := by
  induction l with
  | nil => simp [setPairs, lookupAttr]
  | cons p rest ih =>
    obtain ⟨k, w⟩ := p
    by_cases hk : k = n
    · simp [setPairs, hk, lookupAttr]
    · simp [setPairs, hk, lookupAttr, ih]

theorem lookupAttr_setPairs_other (l : List (String × String)) (n v k : String)
    (h : k ≠ n) : lookupAttr (setPairs l n v) k = lookupAttr l k := by
  induction l with
  | nil => simp [setPairs, lookupAttr, Ne.symm h]
  | cons p rest ih =>
    obtain ⟨k', w⟩ := p
    by_cases hk : k' = n
    · subst hk
      simp [setPairs, lookupAttr, Ne.symm h]
    · by_cases hk2 : k' = k <;> simp [setPairs, lookupAttr, hk, hk2, h, ih]

theorem getAttribute_setAttribute_self (el : Element) (n v : String) :
    (el.setAttribute n v).getAttribute n = some v :=
  lookupAttr_setPairs_self el.attrs n v

theorem getAttribute_setAttribute_other (el : Element) (n v k : String) (h : k ≠ n) :
    (el.setAttribute n v).getAttribute k = el.getAttribute k :=
  lookupAttr_setPairs_other el.attrs n v k h

theorem function_not_string (text : JSValue) (h : ObjectIs.function text = true) :
    ObjectIs.ofType text "string" = false := by
  cases text <;> simp only [ObjectIs.function, JSValue.specType] at h
  all_goals first | exact absurd h (by decide) | rfl

theorem jsDefault_of_ne (v d : JSValue) (h : v ≠ JSValue.vUndef) :
    jsDefault v d = v := by
  cases v <;> simp [jsDefault] <;> exact absurd rfl h

theorem setElementAttributes_cons (el : Element) (n : String) (v : JSValue)
    (rest : List (String × JSValue)) :
    Tag.setElementAttributes el (JSValue.vObj ((n, v) :: rest)) =
      Tag.setElementAttributes (applyAttr el n v) (JSValue.vObj rest) := rfl

theorem setAttribute_id (el : Element) (n v : String) :
    (el.setAttribute n v).id = el.id := rfl

theorem applyAttr_id (el : Element) (n : String) (v : JSValue) :
    (applyAttr el n v).id = el.id := by
  unfold applyAttr
  split <;> rfl

theorem applyAttr_class_append (el : Element) (v : JSValue) (c : String)
    (hc : el.getAttribute "class" = some c) (hne : c ≠ "") :
    applyAttr el "class" v = el.setAttribute "class" (c ++ " " ++ jsToString v) := by
  unfold applyAttr
  rw [hc]
  simp [attrTruthy, attrString, bne_iff_ne, hne]

theorem applyAttr_overwrite (el : Element) (n : String) (v : JSValue)
    (h : n ≠ "class" ∨ attrTruthy (el.getAttribute n) = false) :
    applyAttr el n v = el.setAttribute n (jsToString v) := by
  unfold applyAttr
  rcases h with h | h
  · simp [beq_eq_false_iff_ne, h]
  · simp [h]

/-- Claim C1: the spec says setText accepts exactly strings and callables
and throws an invalid-argument error otherwise, e.g. on setText(42).  The
code's guard is inverted (not-a-string AND a-function), so evaluating the
embedded setText shows: 42 is accepted without any error — the change
intent is dispatched and the markup becomes "42" — while a callable, which
the spec (and the dead function-apply branch of the source itself) says
must be accepted, throws a ReferenceError from the undeclared identifier
type in the throw expression. -/
theorem claim_C1_setText_guard_evaluation :
    (tag0.setText noVeto (JSValue.vNum (JSNumber.finite 42))).err = none ∧
    (tag0.setText noVeto (JSValue.vNum (JSNumber.finite 42))).tag.popupElement.innerHTML
      = "42" ∧
    (tag0.setText noVeto (JSValue.vNum (JSNumber.finite 42))).events =
      [createCancelableTagEvent "taggd.tag.change" Surface.popup,
       createTagEvent "taggd.tag.changed" Surface.popup] ∧
    (tag0.setText noVeto (JSValue.vFun (fun _ => "made by a callable"))).err =
      some (JSError.referenceError "type is not defined") ∧
    (tag0.setText noVeto (JSValue.vFun (fun _ => "made by a callable"))).events = [] ∧
    (tag0.setText noVeto (JSValue.vFun (fun _ => "made by a callable"))).tag = tag0 :=
  ⟨rfl, rfl, rfl, rfl, rfl, rfl⟩

/-- Claim C2 counterexample: setButtonAttributes with a non-mapping
argument (the number 42) raises the invalid-argument error only after the
cancelable change intent has been dispatched on the button surface, so the
error is not raised before every notification as the claim states (the
state is still unchanged). -/
theorem claim_C2_counterexample :
    (tag0.setButtonAttributes noVeto (JSValue.vNum (JSNumber.finite 42))).err =
      some (JSError.typeError "42 is not an object") ∧
    (tag0.setButtonAttributes noVeto (JSValue.vNum (JSNumber.finite 42))).events =
      [createCancelableTagEvent "taggd.tag.change" Surface.button] ∧
    (tag0.setButtonAttributes noVeto (JSValue.vNum (JSNumber.finite 42))).tag = tag0 :=
  ⟨rfl, rfl, rfl⟩

/-- Claim C2 (amended): setPosition raises its invalid-argument error, and
setText raises the error its guard actually produces (a ReferenceError,
fired exactly when the argument is callable), before any event is
dispatched and without mutating any state; the static attribute-merge
throws on a non-mapping argument before any mutation; but
setButtonAttributes and setPopupAttributes dispatch the cancelable change
intent before validating their argument: on a non-mapping argument they
throw only when the intent is not vetoed — after the intent notification,
though still before any mutation and before any confirm notification — and
when the intent is vetoed they return normally without any error. -/
theorem claim_C2_error_ordering :
    ∀ (policy : Policy) (t : Tag) (x y text attrs : JSValue) (el : Element),
      (ObjectIs.number x = false →
        t.setPosition policy x y =
          { tag := t, events := [],
            err := some (JSError.typeError (TypeErrorMessage.getIntegerMessage x)) }) ∧
      (ObjectIs.number x = true → ObjectIs.number y = false →
        t.setPosition policy x y =
          { tag := t, events := [],
            err := some (JSError.typeError (TypeErrorMessage.getIntegerMessage y)) }) ∧
      (ObjectIs.function text = true →
        t.setText policy text =
          { tag := t, events := [],
            err := some (JSError.referenceError "type is not defined") }) ∧
      (ObjectIs.ofType attrs "object" = false → attrs ≠ JSValue.vUndef →
        Tag.setElementAttributes el attrs =
          Except.error (JSError.typeError (TypeErrorMessage.getObjectMessage attrs))) ∧
      (ObjectIs.ofType attrs "object" = false → attrs ≠ JSValue.vUndef →
        policy "taggd.tag.change" Surface.button = false →
        t.setButtonAttributes policy attrs =
          { tag := t,
            events := [createCancelableTagEvent "taggd.tag.change" Surface.button],
            err := some (JSError.typeError (TypeErrorMessage.getObjectMessage attrs)) }) ∧
      (policy "taggd.tag.change" Surface.button = true →
        t.setButtonAttributes policy attrs =
          { tag := t,
            events := [createCancelableTagEvent "taggd.tag.change" Surface.button],
            err := none }) ∧
      (ObjectIs.ofType attrs "object" = false → attrs ≠ JSValue.vUndef →
        policy "taggd.tag.change" Surface.popup = false →
        t.setPopupAttributes policy attrs =
          { tag := t,
            events := [createCancelableTagEvent "taggd.tag.change" Surface.popup],
            err := some (JSError.typeError (TypeErrorMessage.getObjectMessage attrs)) }) ∧
      (policy "taggd.tag.change" Surface.popup = true →
        t.setPopupAttributes policy attrs =
          { tag := t,
            events := [createCancelableTagEvent "taggd.tag.change" Surface.popup],
            err := none }) := by
  intro policy t x y text attrs el
  have hset : ObjectIs.ofType attrs "object" = false → attrs ≠ JSValue.vUndef →
      Tag.setElementAttributes el attrs =
        Except.error (JSError.typeError (TypeErrorMessage.getObjectMessage attrs)) := by
    intro h1 h2
    simp [Tag.setElementAttributes, jsDefault_of_ne attrs _ h2, h1]
  have hsetBtn : ObjectIs.ofType attrs "object" = false → attrs ≠ JSValue.vUndef →
      Tag.setElementAttributes t.buttonElement attrs =
        Except.error (JSError.typeError (TypeErrorMessage.getObjectMessage attrs)) := by
    intro h1 h2
    simp [Tag.setElementAttributes, jsDefault_of_ne attrs _ h2, h1]
  have hsetPop : ObjectIs.ofType attrs "object" = false → attrs ≠ JSValue.vUndef →
      Tag.setElementAttributes t.popupElement attrs =
        Except.error (JSError.typeError (TypeErrorMessage.getObjectMessage attrs)) := by
    intro h1 h2
    simp [Tag.setElementAttributes, jsDefault_of_ne attrs _ h2, h1]
  refine ⟨?_, ?_, ?_, hset, ?_, ?_, ?_, ?_⟩
  · intro hx
    simp [Tag.setPosition, hx]
  · intro hx hy
    simp [Tag.setPosition, hx, hy]
  · intro hf
    simp [Tag.setText, hf, function_not_string text hf]
  · intro h1 h2 hv
    simp [Tag.setButtonAttributes, hv, hsetBtn h1 h2]
  · intro hv
    simp [Tag.setButtonAttributes, hv]
  · intro h1 h2 hv
    simp [Tag.setPopupAttributes, hv, hsetPop h1 h2]
  · intro hv
    simp [Tag.setPopupAttributes, hv]

/-- Claim C2 witness: the amended statement applied at a concrete input:
setButtonAttributes with the non-mapping 42 and no veto dispatches the
intent and then throws. -/
theorem claim_C2_witness :
    tag0.setButtonAttributes noVeto (JSValue.vNum (JSNumber.finite 42)) =
      { tag := tag0,
        events := [createCancelableTagEvent "taggd.tag.change" Surface.button],
        err := some (JSError.typeError (TypeErrorMessage.getObjectMessage
          (JSValue.vNum (JSNumber.finite 42)))) } :=
  ((claim_C2_error_ordering noVeto tag0 JSValue.vNull JSValue.vNull JSValue.vNull
      (JSValue.vNum (JSNumber.finite 42)) (createElement 9)).2.2.2.2.1)
    (by decide) (fun h => JSValue.noConfusion h) rfl

/-- Claim C3: the static attribute-merge throws an invalid-argument error
when the mapping argument is not a plain key/value mapping (the only
argument a mapping-typed default cannot stand in for is undefined itself,
which the parameter default replaces by an empty mapping); for a name that
is class while the element already carries a non-empty class value the new
value is appended after a single space, every other name (including a
first-time class) is overwritten, all other attributes are untouched, and
the returned element is the same element (same identity) mutated in place;
entries are applied one after the other in order. -/
theorem claim_C3_attribute_merge :
    ∀ (el : Element) (attrs v : JSValue) (name : String),
      (ObjectIs.ofType attrs "object" = false → attrs ≠ JSValue.vUndef →
        Tag.setElementAttributes el attrs =
          Except.error (JSError.typeError (TypeErrorMessage.getObjectMessage attrs))) ∧
      (∀ c : String, el.getAttribute "class" = some c → c ≠ "" →
        ∃ el' : Element,
          Tag.setElementAttributes el (JSValue.vObj [("class", v)]) = Except.ok el' ∧
          el'.getAttribute "class" = some (c ++ " " ++ jsToString v) ∧
          (∀ k : String, k ≠ "class" → el'.getAttribute k = el.getAttribute k) ∧
          el'.id = el.id) ∧
      (name ≠ "class" ∨ attrTruthy (el.getAttribute name) = false →
        ∃ el' : Element,
          Tag.setElementAttributes el (JSValue.vObj [(name, v)]) = Except.ok el' ∧
          el'.getAttribute name = some (jsToString v) ∧
          (∀ k : String, k ≠ name → el'.getAttribute k = el.getAttribute k) ∧
          el'.id = el.id) ∧
      (∀ rest : List (String × JSValue),
        Tag.setElementAttributes el (JSValue.vObj ((name, v) :: rest)) =
          Tag.setElementAttributes (applyAttr el name v) (JSValue.vObj rest)) := by
  intro el attrs v name
  refine ⟨?_, ?_, ?_, fun rest => setElementAttributes_cons el name v rest⟩
  · intro h1 h2
    simp [Tag.setElementAttributes, jsDefault_of_ne attrs _ h2, h1]
  · intro c hc hne
    refine ⟨applyAttr el "class" v, rfl, ?_, ?_, applyAttr_id el "class" v⟩
    · rw [applyAttr_class_append el v c hc hne]
      exact getAttribute_setAttribute_self el "class" (c ++ " " ++ jsToString v)
    · intro k hk
      rw [applyAttr_class_append el v c hc hne]
      exact getAttribute_setAttribute_other el "class" _ k hk
  · intro h
    refine ⟨applyAttr el name v, rfl, ?_, ?_, applyAttr_id el name v⟩
    · rw [applyAttr_overwrite el name v h]
      exact getAttribute_setAttribute_self el name (jsToString v)
    · intro k hk
      rw [applyAttr_overwrite el name v h]
      exact getAttribute_setAttribute_other el name _ k hk

/-- Claim C3 witness: merging a class of b onto an element already
carrying class a yields class a b. -/
theorem claim_C3_witness :
    (Tag.setElementAttributes elA (JSValue.vObj [("class", JSValue.vStr "b")])).map
      (fun e => e.getAttribute "class") = Except.ok (some "a b") := by
  obtain ⟨el', h1, h2, h3, h4⟩ :=
    (claim_C3_attribute_merge elA (JSValue.vObj [("class", JSValue.vStr "b")])
      (JSValue.vStr "b") "class").2.1 "a" rfl (by decide)
  rw [h1]
  simp only [Except.map, h2]
  rfl

/-- Claim C4: for every mutator, when an observer vetoes the cancelable
intent notification the mutation is not applied (the Tag state is exactly
the state before the call), no confirm notification is emitted (the only
event dispatched is the intent itself), and the operation returns normally
(no error).  For setText and setPosition this concerns the arguments that
reach the dispatch, i.e. those that pass the guards. -/
theorem claim_C4_veto_is_silent_noop :
    ∀ (policy : Policy) (t : Tag) (text x y attrs : JSValue),
      (policy "taggd.tag.show" Surface.popup = true →
        t.showTag policy =
          { tag := t,
            events := [createCancelableTagEvent "taggd.tag.show" Surface.popup],
            err := none }) ∧
      (policy "taggd.tag.hide" Surface.popup = true →
        t.hideTag policy =
          { tag := t,
            events := [createCancelableTagEvent "taggd.tag.hide" Surface.popup],
            err := none }) ∧
      (policy "taggd.tag.change" Surface.popup = true → ObjectIs.function text = false →
        t.setText policy text =
          { tag := t,
            events := [createCancelableTagEvent "taggd.tag.change" Surface.popup],
            err := none }) ∧
      (policy "taggd.tag.change" Surface.popup = true →
        ObjectIs.number x = true → ObjectIs.number y = true →
        t.setPosition policy x y =
          { tag := t,
            events := [createCancelableTagEvent "taggd.tag.change" Surface.popup],
            err := none }) ∧
      (policy "taggd.tag.change" Surface.button = true →
        t.setButtonAttributes policy attrs =
          { tag := t,
            events := [createCancelableTagEvent "taggd.tag.change" Surface.button],
            err := none }) ∧
      (policy "taggd.tag.change" Surface.popup = true →
        t.setPopupAttributes policy attrs =
          { tag := t,
            events := [createCancelableTagEvent "taggd.tag.change" Surface.popup],
            err := none }) := by
  intro policy t text x y attrs
  refine ⟨?_, ?_, ?_, ?_, ?_, ?_⟩
  · intro hv
    simp [Tag.showTag, hv]
  · intro hv
    simp [Tag.hideTag, hv]
  · intro hv hf
    simp [Tag.setText, hf, hv]
  · intro hv hx hy
    simp [Tag.setPosition, hx, hy, hv]
  · intro hv
    simp [Tag.setButtonAttributes, hv]
  · intro hv
    simp [Tag.setPopupAttributes, hv]

/-- Claim C4 witness: under a policy that cancels everything, showing the
sample tag leaves it unchanged, dispatches only the intent, and returns
normally. -/
theorem claim_C4_witness :
    tag0.showTag allVeto =
      { tag := tag0,
        events := [createCancelableTagEvent "taggd.tag.show" Surface.popup],
        err := none } :=
  (claim_C4_veto_is_silent_noop allVeto tag0 JSValue.vNull JSValue.vNull JSValue.vNull
    JSValue.vNull).1 rfl

/-- Claim C5: setPosition throws an invalid-argument error naming the
offending coordinate and expecting a number when either coordinate is not
a finite number (x is checked first), with nothing dispatched and nothing
mutated; when both are finite numbers and the change intent is not vetoed,
the popup's left style becomes the x coordinate times one hundred rendered
as a string with a percent sign appended, and the top style likewise from
the y coordinate, with the intent and confirm events dispatched in
order. -/
theorem claim_C5_setPosition :
    ∀ (policy : Policy) (t : Tag) (x y : JSValue),
      (ObjectIs.number x = false →
        t.setPosition policy x y =
          { tag := t, events := [],
            err := some (JSError.typeError (TypeErrorMessage.getIntegerMessage x)) }) ∧
      (ObjectIs.number x = true → ObjectIs.number y = false →
        t.setPosition policy x y =
          { tag := t, events := [],
            err := some (JSError.typeError (TypeErrorMessage.getIntegerMessage y)) }) ∧
      (ObjectIs.number x = true → ObjectIs.number y = true →
        policy "taggd.tag.change" Surface.popup = false →
        (t.setPosition policy x y).err = none ∧
        (t.setPosition policy x y).tag.popupElement.styleLeft =
          numToString (jsMul x.toNumber (JSNumber.finite 100)) ++ "%" ∧
        (t.setPosition policy x y).tag.popupElement.styleTop =
          numToString (jsMul y.toNumber (JSNumber.finite 100)) ++ "%" ∧
        (t.setPosition policy x y).events =
          [createCancelableTagEvent "taggd.tag.change" Surface.popup,
           createTagEvent "taggd.tag.changed" Surface.popup]) := by
  intro policy t x y
  refine ⟨?_, ?_, ?_⟩
  · intro hx
    simp [Tag.setPosition, hx]
  · intro hx hy
    simp [Tag.setPosition, hx, hy]
  · intro hx hy hv
    refine ⟨?_, ?_, ?_, ?_⟩ <;>
      simp [Tag.setPosition, hx, hy, hv, Tag.getPositionStyle]

/-- Claim C5 witness: the position one half, one quarter yields the styles
fifty percent and twenty-five percent on the popup with no error, and a
string coordinate throws the invalid-argument error naming it. -/
theorem claim_C5_witness :
    (tag0.setPosition noVeto (JSValue.vNum (JSNumber.finite (mkRat 1 2)))
        (JSValue.vNum (JSNumber.finite (mkRat 1 4)))).tag.popupElement.styleLeft = "50%" ∧
    (tag0.setPosition noVeto (JSValue.vNum (JSNumber.finite (mkRat 1 2)))
        (JSValue.vNum (JSNumber.finite (mkRat 1 4)))).tag.popupElement.styleTop = "25%" ∧
    (tag0.setPosition noVeto (JSValue.vStr "a") (JSValue.vNum (JSNumber.finite 1))).err =
      some (JSError.typeError "a is not a number") := by
  have h := (claim_C5_setPosition noVeto tag0 (JSValue.vNum (JSNumber.finite (mkRat 1 2)))
    (JSValue.vNum (JSNumber.finite (mkRat 1 4)))).2.2 rfl rfl rfl
  have he := (claim_C5_setPosition noVeto tag0 (JSValue.vStr "a")
    (JSValue.vNum (JSNumber.finite 1))).1 rfl
  refine ⟨?_, ?_, ?_⟩
  · rw [h.2.1]
    rfl
  · rw [h.2.2.1]
    rfl
  · rw [he]
    rfl

theorem hide_noVeto_hidden (t : Tag) :
    (t.hideTag noVeto).tag.popupElement.styleDisplay = "none" := rfl

/-- Claim C6: whenever the constructor succeeds, the resulting Tag's popup
(content surface) has display none — the final internal hide() always
applies because no listener can exist on the freshly created elements —
regardless of the initial attributes, position and text arguments. -/
theorem claim_C6_starts_hidden :
    ∀ (tagId buttonId popupId : Nat) (position text battrs pattrs : JSValue)
      (r : Tag × List TagEvent),
      TagNew tagId buttonId popupId position text battrs pattrs = Except.ok r →
      r.1.popupElement.styleDisplay = "none" := by
  intro tagId buttonId popupId position text battrs pattrs r h
  simp only [TagNew] at h
  split at h
  · exact Except.noConfusion h
  · split at h
    · exact Except.noConfusion h
    · split at h
      · exact Except.noConfusion h
      · split at h
        · exact Except.noConfusion h
        · split at h
          · exact Except.noConfusion h
          · split at h
            · exact Except.noConfusion h
            · injection h with h2
              rw [← h2]
              exact hide_noVeto_hidden _

/-- Claim C6 witness: the sample construction succeeds and its popup
starts hidden. -/
theorem claim_C6_witness : sampleConstructed.1.popupElement.styleDisplay = "none" :=
  claim_C6_starts_hidden 0 1 2 samplePos (JSValue.vStr "hi") JSValue.vUndef JSValue.vUndef
    sampleConstructed rfl

/-- Claim C7: the static coordinate-to-style helper is a total pure
function returning exactly the record with left the x coordinate times one
hundred stringified with a percent sign and top likewise from y, for every
pair of JavaScript numbers (including NaN and the infinities — it performs
no validation); and the style setPosition applies to the popup is exactly
the one this helper returns. -/
theorem claim_C7_getPositionStyle :
    ∀ (x y : JSNumber),
      Tag.getPositionStyle x y =
        { left := numToString (jsMul x (JSNumber.finite 100)) ++ "%",
          top := numToString (jsMul y (JSNumber.finite 100)) ++ "%" } ∧
      (∀ (policy : Policy) (t : Tag) (vx vy : JSValue),
        ObjectIs.number vx = true → ObjectIs.number vy = true →
        policy "taggd.tag.change" Surface.popup = false →
        (t.setPosition policy vx vy).tag.popupElement.styleLeft =
          (Tag.getPositionStyle vx.toNumber vy.toNumber).left ∧
        (t.setPosition policy vx vy).tag.popupElement.styleTop =
          (Tag.getPositionStyle vx.toNumber vy.toNumber).top) := by
  intro x y
  refine ⟨rfl, ?_⟩
  intro policy t vx vy hx hy hv
  constructor <;> simp [Tag.setPosition, hx, hy, hv]

/-- Claim C7 witness: the helper's output is what setPosition writes at a
concrete coordinate pair. -/
theorem claim_C7_witness :
    (tag0.setPosition noVeto (JSValue.vNum (JSNumber.finite 3))
        (JSValue.vNum (JSNumber.finite 7))).tag.popupElement.styleLeft =
      (Tag.getPositionStyle (JSNumber.finite 3) (JSNumber.finite 7)).left :=
  ((claim_C7_getPositionStyle (JSNumber.finite 3) (JSNumber.finite 7)).2 noVeto tag0
    (JSValue.vNum (JSNumber.finite 3)) (JSValue.vNum (JSNumber.finite 7)) rfl rfl rfl).1

/-- Claim C8: createFromObject delegates to the constructor with the
object's position, text, buttonAttributes and popupAttributes fields in
that order, adding no validation of its own (absent fields flow through as
undefined, which the constructor chain defaults); and on the spec's
example object — position one half and one quarter, text hi — the
constructed Tag, once shown, has left fifty percent, top twenty-five
percent, and markup hi. -/
theorem claim_C8_createFromObject :
    (∀ (tagId buttonId popupId : Nat) (m : List (String × JSValue)),
      Tag.createFromObject tagId buttonId popupId (JSValue.vObj m) =
        TagNew tagId buttonId popupId
          ((lookupEntry m "position").getD JSValue.vUndef)
          ((lookupEntry m "text").getD JSValue.vUndef)
          ((lookupEntry m "buttonAttributes").getD JSValue.vUndef)
          ((lookupEntry m "popupAttributes").getD JSValue.vUndef)) ∧
    Tag.createFromObject 0 1 2 sampleObject = Except.ok sampleConstructed ∧
    (sampleConstructed.1.showTag noVeto).tag.popupElement.styleLeft = "50%" ∧
    (sampleConstructed.1.showTag noVeto).tag.popupElement.styleTop = "25%" ∧
    (sampleConstructed.1.showTag noVeto).tag.popupElement.innerHTML = "hi" ∧
    (sampleConstructed.1.showTag noVeto).tag.popupElement.styleDisplay = "" :=
  ⟨fun _ _ _ _ => rfl, rfl, rfl, rfl, rfl, rfl⟩

/-- Claim C9: every mutator that does not throw returns the Tag instance
itself — the returned value is this, so its identity equals the
receiver's, whether or not the intent notification was vetoed — which is
what makes chaining possible. -/
theorem claim_C9_returns_self :
    ∀ (policy : Policy) (t : Tag) (text x y attrs : JSValue),
      ((t.showTag policy).err = none ∧ (t.showTag policy).tag.id = t.id) ∧
      ((t.hideTag policy).err = none ∧ (t.hideTag policy).tag.id = t.id) ∧
      ((t.setText policy text).err = none → (t.setText policy text).tag.id = t.id) ∧
      ((t.setPosition policy x y).err = none → (t.setPosition policy x y).tag.id = t.id) ∧
      ((t.setButtonAttributes policy attrs).err = none →
        (t.setButtonAttributes policy attrs).tag.id = t.id) ∧
      ((t.setPopupAttributes policy attrs).err = none →
        (t.setPopupAttributes policy attrs).tag.id = t.id) := by
  intro policy t text x y attrs
  refine ⟨⟨?_, ?_⟩, ⟨?_, ?_⟩, fun _ => ?_, fun _ => ?_, fun _ => ?_, fun _ => ?_⟩
  all_goals simp only [Tag.showTag, Tag.hideTag, Tag.setText, Tag.setPosition,
    Tag.setButtonAttributes, Tag.setPopupAttributes]
  all_goals repeat' split
  all_goals rfl

/-- Claim C9 witness: a vetoed setText still returns the same instance. -/
theorem claim_C9_witness :
    (tag0.setText allVeto (JSValue.vStr "hi")).tag.id = tag0.id :=
  (claim_C9_returns_self allVeto tag0 (JSValue.vStr "hi") JSValue.vNull JSValue.vNull
    JSValue.vNull).2.2.1 rfl

/-- Claim C10: each mutator dispatches its events on, and mutates, only
its own surface: setButtonAttributes leaves the popup element entirely
unchanged and dispatches only on the button, while show, hide, setText,
setPosition and setPopupAttributes leave the button element entirely
unchanged and dispatch only on the popup — for every policy and every
argument, including the throwing and vetoed paths. -/
theorem claim_C10_surface_isolation :
    ∀ (policy : Policy) (t : Tag) (text x y attrs : JSValue),
      ((t.showTag policy).tag.buttonElement = t.buttonElement ∧
        ((t.showTag policy).events.all (fun e => e.surface == Surface.popup)) = true) ∧
      ((t.hideTag policy).tag.buttonElement = t.buttonElement ∧
        ((t.hideTag policy).events.all (fun e => e.surface == Surface.popup)) = true) ∧
      ((t.setText policy text).tag.buttonElement = t.buttonElement ∧
        ((t.setText policy text).events.all (fun e => e.surface == Surface.popup)) = true) ∧
      ((t.setPosition policy x y).tag.buttonElement = t.buttonElement ∧
        ((t.setPosition policy x y).events.all
          (fun e => e.surface == Surface.popup)) = true) ∧
      ((t.setPopupAttributes policy attrs).tag.buttonElement = t.buttonElement ∧
        ((t.setPopupAttributes policy attrs).events.all
          (fun e => e.surface == Surface.popup)) = true) ∧
      ((t.setButtonAttributes policy attrs).tag.popupElement = t.popupElement ∧
        ((t.setButtonAttributes policy attrs).events.all
          (fun e => e.surface == Surface.button)) = true) := by
  intro policy t text x y attrs
  refine ⟨⟨?_, ?_⟩, ⟨?_, ?_⟩, ⟨?_, ?_⟩, ⟨?_, ?_⟩, ⟨?_, ?_⟩, ⟨?_, ?_⟩⟩
  all_goals simp only [Tag.showTag, Tag.hideTag, Tag.setText, Tag.setPosition,
    Tag.setButtonAttributes, Tag.setPopupAttributes]
  all_goals repeat' split
  all_goals rfl
